import Mathlib

/-!
Shallow embedding of the RefugeeHostMatch workflow core.

Data model from `src/shared/schema.ts` (pg tables and drizzle-zod insert
schemas), persistence operations from `src/server/storage.ts`
(`DatabaseStorage`), and HTTP route handlers from the Express route
registration file (`src/unnamed/part_000`, `registerRoutes`).

Conventions: SQL timestamps are modelled as `Nat` (epoch instants supplied by
the caller in place of `new Date()`), nullable columns as `Option`, text
arrays as `List String`, and the database as in-memory lists of rows.
`serial` primary keys are assigned as `length + 1`.
-/

/-- `user_role` pg enum: refugee | host | admin. -/
inductive Role where
  | refugee
  | host
  | admin
deriving DecidableEq, Repr

/-- `profile_status` pg enum: pending | approved | rejected. -/
inductive ProfileStatus where
  | pending
  | approved
  | rejected
deriving DecidableEq, Repr

/-- `contract_status` pg enum. -/
inductive ContractStatus where
  | proposed
  | signed_refugee
  | signed_host
  | completed
  | cancelled
deriving DecidableEq, Repr

/-- `message_status` pg enum: sent | delivered | read. -/
inductive MessageStatus where
  | sent
  | delivered
  | read
deriving DecidableEq, Repr

/-- Row of the `users` table (schema.ts). -/
structure User where
  id : String
  email : Option String
  firstName : Option String
  lastName : Option String
  profileImageUrl : Option String
  role : Role
  profileStatus : ProfileStatus
  createdAt : Nat
  updatedAt : Nat
deriving DecidableEq, Repr

/-- Row of the `refugee_profiles` table (schema.ts). -/
structure RefugeeProfile where
  id : Nat
  userId : String
  familySize : Nat
  estimatedStay : String
  medicalNeeds : Option String
  specialRequirements : Option String
  languages : Option (List String)
  countryOfOrigin : Option String
  phoneNumber : Option String
  emergencyContact : Option String
  additionalInfo : Option String
  createdAt : Nat
  updatedAt : Nat
deriving DecidableEq, Repr

/-- Row of the `host_profiles` table (schema.ts). -/
structure HostProfile where
  id : Nat
  userId : String
  accommodationType : String
  maxOccupants : Nat
  availabilityDuration : String
  description : Option String
  houseRules : Option String
  amenities : Option (List String)
  location : String
  address : Option String
  phoneNumber : Option String
  petFriendly : Bool
  smokingAllowed : Bool
  accessibilityFeatures : Option String
  criminalRecordChecked : Bool
  backgroundCheckDate : Option Nat
  additionalInfo : Option String
  createdAt : Nat
  updatedAt : Nat
deriving DecidableEq, Repr

/-- Row of the `messages` table (schema.ts). -/
structure Message where
  id : Nat
  senderId : String
  receiverId : String
  content : String
  status : MessageStatus
  createdAt : Nat
  readAt : Option Nat
deriving DecidableEq, Repr

/-- Row of the `contracts` table (schema.ts). -/
structure Contract where
  id : Nat
  refugeeId : String
  hostId : String
  status : ContractStatus
  terms : String
  duration : String
  startDate : Option Nat
  endDate : Option Nat
  refugeeSignedAt : Option Nat
  hostSignedAt : Option Nat
  adminApprovedAt : Option Nat
  adminApprovedBy : Option String
  createdAt : Nat
  updatedAt : Nat
deriving DecidableEq, Repr

/-- Row of the `notifications` table (schema.ts). -/
structure Notification where
  id : Nat
  userId : String
  title : String
  content : String
  type : String
  read : Bool
  createdAt : Nat
deriving DecidableEq, Repr

/-- The database: one list of rows per table touched by the workflow core. -/
structure DB where
  users : List User
  refugeeProfiles : List RefugeeProfile
  hostProfiles : List HostProfile
  messages : List Message
  contracts : List Contract
  notifications : List Notification
deriving DecidableEq, Repr

/-- `InsertContract = z.infer<typeof insertContractSchema>`: the contract
insert payload after zod parsing. `insertContractSchema` omits `id`, the
signature timestamps, the admin-approval fields and the row timestamps;
`status` is kept and optional (the column has a default), `startDate` and
`endDate` are optional (nullable columns). -/
structure InsertContract where
  refugeeId : String
  hostId : String
  status : Option ContractStatus
  terms : String
  duration : String
  startDate : Option Nat
  endDate : Option Nat
deriving DecidableEq, Repr

/-- A raw `POST /api/contracts` request body before zod validation: every
field may be absent (`none` models both an absent key and an explicit null,
which coincide for nullable columns). -/
structure ContractReq where
  refugeeId : Option String
  hostId : Option String
  status : Option ContractStatus
  terms : Option String
  duration : Option String
  startDate : Option Nat
  endDate : Option Nat
deriving DecidableEq, Repr

/-- `insertContractSchema.parse`: succeeds exactly when the not-null,
no-default columns kept by the schema (`refugeeId`, `hostId`, `terms`,
`duration`) are present; `status`, `startDate`, `endDate` are optional. -/
def parseInsertContract (b : ContractReq) : Option InsertContract :=
  match b.refugeeId, b.hostId, b.terms, b.duration with
  | some r, some h, some t, some d =>
      some { refugeeId := r, hostId := h, status := b.status, terms := t,
             duration := d, startDate := b.startDate, endDate := b.endDate }
  | _, _, _, _ => none

/-- `InsertRefugeeProfile`: refugee-profile insert payload after zod parsing
(`insertRefugeeProfileSchema` omits `id`, `userId` and the row timestamps). -/
structure InsertRefugeeProfile where
  familySize : Nat
  estimatedStay : String
  medicalNeeds : Option String
  specialRequirements : Option String
  languages : Option (List String)
  countryOfOrigin : Option String
  phoneNumber : Option String
  emergencyContact : Option String
  additionalInfo : Option String
deriving DecidableEq, Repr

/-- Raw `POST /api/profiles/refugee` body before zod validation. -/
structure RefugeeProfileReq where
  familySize : Option Nat
  estimatedStay : Option String
  medicalNeeds : Option String
  specialRequirements : Option String
  languages : Option (List String)
  countryOfOrigin : Option String
  phoneNumber : Option String
  emergencyContact : Option String
  additionalInfo : Option String
deriving DecidableEq, Repr

/-- `insertRefugeeProfileSchema.parse`: requires the not-null, no-default
columns `familySize` and `estimatedStay`; all other columns are nullable. -/
def parseInsertRefugeeProfile (b : RefugeeProfileReq) : Option InsertRefugeeProfile :=
  match b.familySize, b.estimatedStay with
  | some fs, some es =>
      some { familySize := fs, estimatedStay := es,
             medicalNeeds := b.medicalNeeds,
             specialRequirements := b.specialRequirements,
             languages := b.languages, countryOfOrigin := b.countryOfOrigin,
             phoneNumber := b.phoneNumber,
             emergencyContact := b.emergencyContact,
             additionalInfo := b.additionalInfo }
  | _, _ => none

/-- `InsertHostProfile`: host-profile insert payload after zod parsing
(`insertHostProfileSchema` omits `id`, `userId` and the row timestamps); the
boolean columns have defaults so they are optional. -/
structure InsertHostProfile where
  accommodationType : String
  maxOccupants : Nat
  availabilityDuration : String
  description : Option String
  houseRules : Option String
  amenities : Option (List String)
  location : String
  address : Option String
  phoneNumber : Option String
  petFriendly : Option Bool
  smokingAllowed : Option Bool
  accessibilityFeatures : Option String
  criminalRecordChecked : Option Bool
  backgroundCheckDate : Option Nat
  additionalInfo : Option String
deriving DecidableEq, Repr

/-- Raw `POST /api/profiles/host` body before zod validation. -/
structure HostProfileReq where
  accommodationType : Option String
  maxOccupants : Option Nat
  availabilityDuration : Option String
  description : Option String
  houseRules : Option String
  amenities : Option (List String)
  location : Option String
  address : Option String
  phoneNumber : Option String
  petFriendly : Option Bool
  smokingAllowed : Option Bool
  accessibilityFeatures : Option String
  criminalRecordChecked : Option Bool
  backgroundCheckDate : Option Nat
  additionalInfo : Option String
deriving DecidableEq, Repr

/-- `insertHostProfileSchema.parse`: requires the not-null, no-default
columns `accommodationType`, `maxOccupants`, `availabilityDuration` and
`location`. -/
def parseInsertHostProfile (b : HostProfileReq) : Option InsertHostProfile :=
  match b.accommodationType, b.maxOccupants, b.availabilityDuration, b.location with
  | some at_, some mo, some ad, some loc =>
      some { accommodationType := at_, maxOccupants := mo,
             availabilityDuration := ad, description := b.description,
             houseRules := b.houseRules, amenities := b.amenities,
             location := loc, address := b.address,
             phoneNumber := b.phoneNumber, petFriendly := b.petFriendly,
             smokingAllowed := b.smokingAllowed,
             accessibilityFeatures := b.accessibilityFeatures,
             criminalRecordChecked := b.criminalRecordChecked,
             backgroundCheckDate := b.backgroundCheckDate,
             additionalInfo := b.additionalInfo }
  | _, _, _, _ => none

/-- `InsertNotification`: notification insert payload (`read` has a default
so it is optional; the route handlers never pass it). -/
structure InsertNotification where
  userId : String
  title : String
  content : String
  type : String
  read : Option Bool
deriving DecidableEq, Repr

/-- The `"refugee" | "host"` union type taken by `storage.signContract`. -/
inductive SignerRole where
  | refugee
  | host
deriving DecidableEq, Repr

namespace DatabaseStorage

/-- `getUser`: `select from users where users.id = id`, first row. -/
def getUser (db : DB) (id : String) : Option User :=
  db.users.find? (fun u => u.id = id)

/-- `createRefugeeProfile`: unconditional insert into `refugee_profiles`
(no duplicate check; the `user_id` column has no unique constraint). -/
def createRefugeeProfile (db : DB) (userId : String) (p : InsertRefugeeProfile)
    (now : Nat) : DB × RefugeeProfile :=
  let row : RefugeeProfile :=
    { id := db.refugeeProfiles.length + 1, userId := userId,
      familySize := p.familySize, estimatedStay := p.estimatedStay,
      medicalNeeds := p.medicalNeeds,
      specialRequirements := p.specialRequirements,
      languages := p.languages, countryOfOrigin := p.countryOfOrigin,
      phoneNumber := p.phoneNumber, emergencyContact := p.emergencyContact,
      additionalInfo := p.additionalInfo, createdAt := now, updatedAt := now }
  ({ db with refugeeProfiles := db.refugeeProfiles ++ [row] }, row)

/-- `createHostProfile`: unconditional insert into `host_profiles`
(no duplicate check; column defaults applied for absent optional booleans). -/
def createHostProfile (db : DB) (userId : String) (p : InsertHostProfile)
    (now : Nat) : DB × HostProfile :=
  let row : HostProfile :=
    { id := db.hostProfiles.length + 1, userId := userId,
      accommodationType := p.accommodationType,
      maxOccupants := p.maxOccupants,
      availabilityDuration := p.availabilityDuration,
      description := p.description, houseRules := p.houseRules,
      amenities := p.amenities, location := p.location,
      address := p.address, phoneNumber := p.phoneNumber,
      petFriendly := p.petFriendly.getD false,
      smokingAllowed := p.smokingAllowed.getD false,
      accessibilityFeatures := p.accessibilityFeatures,
      criminalRecordChecked := p.criminalRecordChecked.getD false,
      backgroundCheckDate := p.backgroundCheckDate,
      additionalInfo := p.additionalInfo, createdAt := now, updatedAt := now }
  ({ db with hostProfiles := db.hostProfiles ++ [row] }, row)

/-- `updateProfileStatus`: `update users set profile_status, updated_at
where users.id = userId` (unconditional overwrite, no state check). -/
def updateProfileStatus (db : DB) (userId : String) (status : ProfileStatus)
    (now : Nat) : DB :=
  { db with users := db.users.map (fun u =>
      if u.id = userId then { u with profileStatus := status, updatedAt := now }
      else u) }

/-- `getApprovedHosts`: `select from users inner join host_profiles on
users.id = host_profiles.user_id where profile_status = approved and
role = host`, each row mapped to the (user, hostProfile) pair. -/
def getApprovedHosts (db : DB) : List (User × HostProfile) :=
  (db.users.flatMap (fun u =>
      db.hostProfiles.filterMap (fun p =>
        if p.userId = u.id then some (u, p) else none))).filter
    (fun up => decide (up.1.profileStatus = ProfileStatus.approved ∧
                       up.1.role = Role.host))

/-- `getConversation`: messages whose (sender, receiver) pair is either
ordering of the two users, ordered ascending by `created_at` (the SQL
`orderBy asc(messages.createdAt)` is modelled by a sort on that key). -/
def getConversation (db : DB) (userId1 userId2 : String) : List Message :=
  List.insertionSort (fun m1 m2 => m1.createdAt ≤ m2.createdAt)
    (db.messages.filter (fun m =>
      decide ((m.senderId = userId1 ∧ m.receiverId = userId2) ∨
              (m.senderId = userId2 ∧ m.receiverId = userId1))))

/-- `createContract`: unconditional insert into `contracts`; `status`
defaults to `proposed` when absent, signature and approval columns start
null. -/
def createContract (db : DB) (c : InsertContract) (now : Nat) : DB × Contract :=
  let row : Contract :=
    { id := db.contracts.length + 1,
      refugeeId := c.refugeeId, hostId := c.hostId,
      status := c.status.getD ContractStatus.proposed,
      terms := c.terms, duration := c.duration,
      startDate := c.startDate, endDate := c.endDate,
      refugeeSignedAt := none, hostSignedAt := none,
      adminApprovedAt := none, adminApprovedBy := none,
      createdAt := now, updatedAt := now }
  ({ db with contracts := db.contracts ++ [row] }, row)

/-- `getContract`: `select from contracts where contracts.id = id`, first
row. -/
def getContract (db : DB) (id : Nat) : Option Contract :=
  db.contracts.find? (fun c => c.id = id)

/-- `signContract`: `update contracts set refugeeSignedAt = new Date()`
(or `hostSignedAt`) `where contracts.id = contractId`. The write is
unconditional — there is no check that the timestamp is currently unset. -/
def signContract (db : DB) (contractId : Nat) (userType : SignerRole)
    (now : Nat) : DB :=
  { db with contracts := db.contracts.map (fun c =>
      if c.id = contractId then
        match userType with
        | SignerRole.refugee => { c with refugeeSignedAt := some now }
        | SignerRole.host => { c with hostSignedAt := some now }
      else c) }

/-- `approveContract`: `update contracts set adminApprovedAt, adminApprovedBy,
status = completed where contracts.id = contractId`. No check of the
signature timestamps. -/
def approveContract (db : DB) (contractId : Nat) (adminId : String)
    (now : Nat) : DB :=
  { db with contracts := db.contracts.map (fun c =>
      if c.id = contractId then
        { c with adminApprovedAt := some now,
                 adminApprovedBy := some adminId,
                 status := ContractStatus.completed }
      else c) }

/-- `createNotification`: insert into `notifications`; `read` defaults to
false. -/
def createNotification (db : DB) (n : InsertNotification) (now : Nat) :
    DB × Notification :=
  let row : Notification :=
    { id := db.notifications.length + 1, userId := n.userId,
      title := n.title, content := n.content, type := n.type,
      read := n.read.getD false, createdAt := now }
  ({ db with notifications := db.notifications ++ [row] }, row)

/-- `markNotificationAsRead`: `update notifications set read = true where
notifications.id = notificationId` — no recipient condition. -/
def markNotificationAsRead (db : DB) (notificationId : Nat) : DB :=
  { db with notifications := db.notifications.map (fun n =>
      if n.id = notificationId then { n with read := true } else n) }

end DatabaseStorage

/-- HTTP-level outcome of a route handler: `res.json(...)` payload or an
error status with its message. -/
inductive Resp (α : Type) where
  | ok (value : α)
  | err (code : Nat) (msg : String)
deriving DecidableEq, Repr

/-- `POST /api/profiles/refugee` (registerRoutes): parses the body against
`insertRefugeeProfileSchema`, inserts the profile for the authenticated
user, and emits an approval notification to the placeholder `"admin"`
recipient. Any thrown error (a zod parse failure) is caught and answered
with status 400; there is no duplicate-profile check. `callerFirstName`
models `req.user.claims.first_name`. -/
def routeCreateRefugeeProfile (db : DB) (callerId : String)
    (callerFirstName : Option String) (body : RefugeeProfileReq)
    (now : Nat) : Resp RefugeeProfile × DB :=
  match parseInsertRefugeeProfile body with
  | none => (Resp.err 400 "Failed to create profile", db)
  | some data =>
      let r := DatabaseStorage.createRefugeeProfile db callerId data now
      let db2 := (DatabaseStorage.createNotification r.1
        { userId := "admin", title := "New Refugee Profile",
          content := "New refugee profile submitted by " ++
            callerFirstName.getD "User",
          type := "approval", read := none } now).1
      (Resp.ok r.2, db2)

/-- `POST /api/profiles/host` (registerRoutes): same shape as the refugee
profile route, against `insertHostProfileSchema`. -/
def routeCreateHostProfile (db : DB) (callerId : String)
    (callerFirstName : Option String) (body : HostProfileReq)
    (now : Nat) : Resp HostProfile × DB :=
  match parseInsertHostProfile body with
  | none => (Resp.err 400 "Failed to create profile", db)
  | some data =>
      let r := DatabaseStorage.createHostProfile db callerId data now
      let db2 := (DatabaseStorage.createNotification r.1
        { userId := "admin", title := "New Host Profile",
          content := "New host profile submitted by " ++
            callerFirstName.getD "User",
          type := "approval", read := none } now).1
      (Resp.ok r.2, db2)

/-- `POST /api/admin/approve-profile` (registerRoutes): requires the caller
to resolve to a user with role admin (403 otherwise), then unconditionally
overwrites the target user's `profile_status` with approved/rejected per the
`approved` flag — the target's current status is never consulted — and
notifies the target. -/
def routeApproveProfile (db : DB) (callerId : String) (targetUserId : String)
    (approved : Bool) (now : Nat) : Resp Unit × DB :=
  match DatabaseStorage.getUser db callerId with
  | none => (Resp.err 403 "Admin access required", db)
  | some u =>
      if u.role = Role.admin then
        let status := if approved then ProfileStatus.approved
                      else ProfileStatus.rejected
        let db1 := DatabaseStorage.updateProfileStatus db targetUserId status now
        let title := if approved then "Profile Approved" else "Profile Rejected"
        let content := if approved then
            "Your profile has been approved by the admin team."
          else "Your profile has been rejected by the admin team."
        let db2 := (DatabaseStorage.createNotification db1
          { userId := targetUserId, title := title, content := content,
            type := "approval", read := none } now).1
        (Resp.ok (), db2)
      else (Resp.err 403 "Admin access required", db)

/-- `GET /api/hosts/available` (registerRoutes): 403 unless the caller's
`profileStatus` is approved (a missing user also fails the
`user?.profileStatus !== 'approved'` check); otherwise returns
`getApprovedHosts`. -/
def routeAvailableHosts (db : DB) (callerId : String) :
    Resp (List (User × HostProfile)) × DB :=
  match DatabaseStorage.getUser db callerId with
  | none => (Resp.err 403 "Profile must be approved to view hosts", db)
  | some u =>
      if u.profileStatus = ProfileStatus.approved then
        (Resp.ok (DatabaseStorage.getApprovedHosts db), db)
      else (Resp.err 403 "Profile must be approved to view hosts", db)

/-- `POST /api/contracts` (registerRoutes): parses the body against
`insertContractSchema` (400 on failure, nothing inserted); overwrites
`refugeeId` (resp. `hostId`) with the caller's id when the caller's role is
refugee (resp. host); inserts the contract; notifies the counterpart. -/
def routeCreateContract (db : DB) (callerId : String) (body : ContractReq)
    (now : Nat) : Resp Contract × DB :=
  let user := DatabaseStorage.getUser db callerId
  match parseInsertContract body with
  | none => (Resp.err 400 "Failed to create contract", db)
  | some cd0 =>
      let cd :=
        if (user.map User.role) = some Role.refugee then
          { cd0 with refugeeId := callerId }
        else if (user.map User.role) = some Role.host then
          { cd0 with hostId := callerId }
        else cd0
      let r := DatabaseStorage.createContract db cd now
      let notifyUserId :=
        if (user.map User.role) = some Role.refugee then cd.hostId
        else cd.refugeeId
      let db2 := (DatabaseStorage.createNotification r.1
        { userId := notifyUserId, title := "New Contract Proposal",
          content := "You have received a new contract proposal",
          type := "contract", read := none } now).1
      (Resp.ok r.2, db2)

/-- `POST /api/contracts/:id/sign` (registerRoutes): 403 unless the caller
resolves to a user with role refugee or host; then calls
`storage.signContract` with the caller's role — the route never compares the
caller's id with the contract's `refugeeId`/`hostId`. Afterwards, if the
contract now has both signature timestamps, notifies the placeholder
`"admin"` recipient. -/
def routeSignContract (db : DB) (callerId : String) (contractId : Nat)
    (now : Nat) : Resp Unit × DB :=
  match DatabaseStorage.getUser db callerId with
  | none => (Resp.err 403 "Only refugees and hosts can sign contracts", db)
  | some u =>
      match u.role with
      | Role.admin =>
          (Resp.err 403 "Only refugees and hosts can sign contracts", db)
      | Role.refugee =>
          let db1 := DatabaseStorage.signContract db contractId
            SignerRole.refugee now
          (Resp.ok (), signNotify db1 contractId now)
      | Role.host =>
          let db1 := DatabaseStorage.signContract db contractId
            SignerRole.host now
          (Resp.ok (), signNotify db1 contractId now)
where
  /-- The post-sign check: if both parties have signed, notify admin. -/
  signNotify (db1 : DB) (contractId : Nat) (now : Nat) : DB :=
    match DatabaseStorage.getContract db1 contractId with
    | some c =>
        if c.refugeeSignedAt.isSome ∧ c.hostSignedAt.isSome then
          (DatabaseStorage.createNotification db1
            { userId := "admin", title := "Contract Ready for Approval",
              content := "A contract has been signed by both parties and needs admin approval",
              type := "contract", read := none } now).1
        else db1
    | none => db1

/-- `POST /api/contracts/:id/approve` (registerRoutes): 403 unless the
caller resolves to a user with role admin; then calls
`storage.approveContract` — no check of the signature timestamps — and, if
the contract exists, notifies both named parties. -/
def routeApproveContract (db : DB) (callerId : String) (contractId : Nat)
    (now : Nat) : Resp Unit × DB :=
  match DatabaseStorage.getUser db callerId with
  | none => (Resp.err 403 "Admin access required", db)
  | some u =>
      if u.role = Role.admin then
        let db1 := DatabaseStorage.approveContract db contractId callerId now
        match DatabaseStorage.getContract db1 contractId with
        | some c =>
            let db2 := (DatabaseStorage.createNotification db1
              { userId := c.refugeeId, title := "Contract Approved",
                content := "Your housing contract has been approved by admin",
                type := "contract", read := none } now).1
            let db3 := (DatabaseStorage.createNotification db2
              { userId := c.hostId, title := "Contract Approved",
                content := "Your hosting contract has been approved by admin",
                type := "contract", read := none } now).1
            (Resp.ok (), db3)
        | none => (Resp.ok (), db1)
      else (Resp.err 403 "Admin access required", db)

/-- `POST /api/notifications/:id/read` (registerRoutes): calls
`storage.markNotificationAsRead` with the path id. The authenticated
caller's identity is never compared with the notification's recipient. -/
def routeMarkNotificationRead (db : DB) (callerId : String)
    (notificationId : Nat) : Resp Unit × DB :=
  (Resp.ok (), DatabaseStorage.markNotificationAsRead db notificationId)

/-- One step of the contract workflow: any call to the three
`DatabaseStorage` contract operations, with arbitrary arguments.
`createContract` takes an `InsertContract`, i.e. exactly the payloads that
pass `insertContractSchema`. -/
inductive ContractStep : DB → DB → Prop where
  | create (db : DB) (ic : InsertContract) (now : Nat) :
      ContractStep db (DatabaseStorage.createContract db ic now).1
  | sign (db : DB) (contractId : Nat) (userType : SignerRole) (now : Nat) :
      ContractStep db (DatabaseStorage.signContract db contractId userType now)
  | approve (db : DB) (contractId : Nat) (adminId : String) (now : Nat) :
      ContractStep db (DatabaseStorage.approveContract db contractId adminId now)

/-- The empty database. -/
def DB.empty : DB :=
  { users := [], refugeeProfiles := [], hostProfiles := [],
    messages := [], contracts := [], notifications := [] }

/-- A user row with the optional columns null (used for concrete states). -/
def mkUser (id : String) (role : Role) (st : ProfileStatus) : User :=
  { id := id, email := none, firstName := none, lastName := none,
    profileImageUrl := none, role := role, profileStatus := st,
    createdAt := 0, updatedAt := 0 }

/-- A freshly proposed contract row between two named parties, with the
nullable columns null (used for concrete states). -/
def mkContract (id : Nat) (refugeeId hostId : String) : Contract :=
  { id := id, refugeeId := refugeeId, hostId := hostId,
    status := ContractStatus.proposed, terms := "standard terms",
    duration := "3 months", startDate := none, endDate := none,
    refugeeSignedAt := none, hostSignedAt := none,
    adminApprovedAt := none, adminApprovedBy := none,
    createdAt := 0, updatedAt := 0 }

/-- Contract table state used for the re-signing experiment. -/
def dbC2 : DB := { DB.empty with contracts := [mkContract 1 "r1" "h1"] }

/-- A notification whose recipient is `"alice"`, plus the two users. -/
def nC10 : Notification :=
  { id := 1, userId := "alice", title := "Contract Approved",
    content := "Your housing contract has been approved by admin",
    type := "contract", read := false, createdAt := 0 }

/-- Database state for the notification-read experiment. -/
def dbC10 : DB :=
  { DB.empty with
      users := [mkUser "alice" Role.refugee ProfileStatus.approved,
                mkUser "bob" Role.host ProfileStatus.approved],
      notifications := [nC10] }

/-- State for the contract-approval experiment: an admin and an unsigned
contract. -/
def dbC1 : DB :=
  { DB.empty with
      users := [mkUser "a1" Role.admin ProfileStatus.approved],
      contracts := [mkContract 1 "r1" "h1"] }

/-- State for the non-party signing experiment: `"eve"` is a refugee user
who is not named on contract 1. -/
def dbC3 : DB :=
  { DB.empty with
      users := [mkUser "eve" Role.refugee ProfileStatus.approved],
      contracts := [mkContract 1 "r1" "h1"] }

/-- State for the profile re-review experiment: an admin and a target user
whose profile was already approved. -/
def dbC6 : DB :=
  { DB.empty with
      users := [mkUser "a1" Role.admin ProfileStatus.approved,
                mkUser "u1" Role.refugee ProfileStatus.approved] }

/-- A parseable refugee-profile submission body. -/
def rpBody : RefugeeProfileReq :=
  { familySize := some 2, estimatedStay := some "3-6 months",
    medicalNeeds := none, specialRequirements := none, languages := none,
    countryOfOrigin := none, phoneNumber := none, emergencyContact := none,
    additionalInfo := none }

/-- The parse result of `rpBody`. -/
def rpData : InsertRefugeeProfile :=
  { familySize := 2, estimatedStay := "3-6 months", medicalNeeds := none,
    specialRequirements := none, languages := none, countryOfOrigin := none,
    phoneNumber := none, emergencyContact := none, additionalInfo := none }

/-- An existing refugee profile row for user `"u1"`. -/
def rpExisting : RefugeeProfile :=
  { id := 1, userId := "u1", familySize := 2, estimatedStay := "3-6 months",
    medicalNeeds := none, specialRequirements := none, languages := none,
    countryOfOrigin := none, phoneNumber := none, emergencyContact := none,
    additionalInfo := none, createdAt := 0, updatedAt := 0 }

/-- State for the duplicate-submission experiment: `"u1"` already has a
refugee profile. -/
def dbC5 : DB :=
  { DB.empty with
      users := [mkUser "u1" Role.refugee ProfileStatus.pending],
      refugeeProfiles := [rpExisting] }

/-- A contract proposal body with both dates absent but all required fields
present. -/
def bodyC9 : ContractReq :=
  { refugeeId := some "r1", hostId := some "h1", status := none,
    terms := some "standard terms", duration := some "3 months",
    startDate := none, endDate := none }

/-- The same body with `terms` removed. -/
def bodyC9m : ContractReq := { bodyC9 with terms := none }

/-- State for the contract-creation experiment: a refugee proposer. -/
def dbC9 : DB :=
  { DB.empty with users := [mkUser "r1" Role.refugee ProfileStatus.approved] }

/-- An approved host profile row for user `"h1"`. -/
def hpC7 : HostProfile :=
  { id := 1, userId := "h1", accommodationType := "apartment",
    maxOccupants := 3, availabilityDuration := "6 months",
    description := none, houseRules := none, amenities := none,
    location := "Zurich", address := none, phoneNumber := none,
    petFriendly := false, smokingAllowed := false,
    accessibilityFeatures := none, criminalRecordChecked := false,
    backgroundCheckDate := none, additionalInfo := none,
    createdAt := 0, updatedAt := 0 }

/-- State for the discovery experiment: an approved refugee requester, an
approved host with profile. -/
def dbC7 : DB :=
  { DB.empty with
      users := [mkUser "s1" Role.refugee ProfileStatus.approved,
                mkUser "h1" Role.host ProfileStatus.approved],
      hostProfiles := [hpC7] }

instance : IsTotal Message (fun m1 m2 => m1.createdAt ≤ m2.createdAt) :=
  ⟨fun x y => Nat.le_total x.createdAt y.createdAt⟩

instance : IsTrans Message (fun m1 m2 => m1.createdAt ≤ m2.createdAt) :=
  ⟨fun _ _ _ h1 h2 => Nat.le_trans h1 h2⟩

/-- Three messages: two in the alice–bob conversation (out of timestamp
order), one to a third party. -/
def msgA : Message :=
  { id := 1, senderId := "alice", receiverId := "bob", content := "hi",
    status := MessageStatus.sent, createdAt := 5, readAt := none }

/-- Reply from bob, earlier timestamp. -/
def msgB : Message :=
  { id := 2, senderId := "bob", receiverId := "alice", content := "hello",
    status := MessageStatus.sent, createdAt := 3, readAt := none }

/-- A message outside the alice–bob conversation. -/
def msgC : Message :=
  { id := 3, senderId := "alice", receiverId := "carol", content := "hey",
    status := MessageStatus.sent, createdAt := 1, readAt := none }

/-- Message store for the conversation experiment. -/
def dbC8 : DB := { DB.empty with messages := [msgA, msgB, msgC] }

/-- A contract-free initial state with one registered refugee. -/
def dbC4a : DB :=
  { DB.empty with users := [mkUser "r1" Role.refugee ProfileStatus.approved] }

/-- A contract insert payload whose caller-supplied `status` is
`completed` — accepted by `insertContractSchema`, which does not omit the
`status` column. -/
def icC4 : InsertContract :=
  { refugeeId := "r1", hostId := "h1",
    status := some ContractStatus.completed, terms := "standard terms",
    duration := "3 months", startDate := none, endDate := none }

/-- The state after `createContract` with `icC4`. -/
def dbC4b : DB := (DatabaseStorage.createContract dbC4a icC4 7).1

/-- A well-formed proposal payload (default status). -/
def icC4p : InsertContract :=
  { refugeeId := "r1", hostId := "h1", status := none,
    terms := "standard terms", duration := "3 months",
    startDate := none, endDate := none }

/-- The state after creating the proposal. -/
def dbC4c : DB := (DatabaseStorage.createContract dbC4a icC4p 3).1

/-- The state after admin approval of contract 1. -/
def dbC4d : DB := DatabaseStorage.approveContract dbC4c 1 "a1" 9

@[simp] theorem createNotification_contracts (db : DB) (n : InsertNotification)
    (now : Nat) :
    ((DatabaseStorage.createNotification db n now).1).contracts = db.contracts :=
  rfl

@[simp] theorem createNotification_users (db : DB) (n : InsertNotification)
    (now : Nat) :
    ((DatabaseStorage.createNotification db n now).1).users = db.users :=
  rfl

@[simp] theorem createNotification_refugeeProfiles (db : DB)
    (n : InsertNotification) (now : Nat) :
    ((DatabaseStorage.createNotification db n now).1).refugeeProfiles =
      db.refugeeProfiles :=
  rfl

@[simp] theorem createNotification_hostProfiles (db : DB)
    (n : InsertNotification) (now : Nat) :
    ((DatabaseStorage.createNotification db n now).1).hostProfiles =
      db.hostProfiles :=
  rfl

@[simp] theorem signNotify_contracts (db : DB) (cid now : Nat) :
    (routeSignContract.signNotify db cid now).contracts = db.contracts := by
  unfold routeSignContract.signNotify
  cases DatabaseStorage.getContract db cid with
  | none => rfl
  | some c =>
      dsimp only
      split
      · rfl
      · rfl

/-- C2 amended: `signContract` overwrites unconditionally. Signing the same
contract twice with the same acting role is equivalent to the second call
alone, and the resulting signature timestamp of the matching contract is the
second call's time. -/
theorem signContract_overwrite (db : DB) (cid : Nat) (r : SignerRole)
    (t1 t2 : Nat) :
    DatabaseStorage.signContract (DatabaseStorage.signContract db cid r t1)
        cid r t2 =
      DatabaseStorage.signContract db cid r t2 ∧
    ∀ c ∈ (DatabaseStorage.signContract
        (DatabaseStorage.signContract db cid r t1) cid r t2).contracts,
      c.id = cid →
      (match r with
       | SignerRole.refugee => c.refugeeSignedAt
       | SignerRole.host => c.hostSignedAt) = some t2 := by
  constructor
  · unfold DatabaseStorage.signContract
    simp only [List.map_map]
    congr 1
    apply List.map_congr_left
    intro a _
    cases r <;> by_cases h : a.id = cid <;> simp [h]
  · intro c hc hid
    unfold DatabaseStorage.signContract at hc
    simp only [List.map_map, List.mem_map, Function.comp] at hc
    obtain ⟨a, _, rfl⟩ := hc
    cases r <;> by_cases h : a.id = cid <;> simp_all

/-- C2 counterexample: a contract signed by the refugee at time 1 and again
at time 2 ends with `refugeeSignedAt = some 2`, not the first call's
timestamp `some 1` — re-signing is an overwrite, not a no-op. -/
theorem signContract_twice_not_first :
    ((DatabaseStorage.signContract
        (DatabaseStorage.signContract dbC2 1 SignerRole.refugee 1)
        1 SignerRole.refugee 2).contracts.map Contract.refugeeSignedAt) =
      [some 2] ∧
    ((DatabaseStorage.signContract dbC2 1 SignerRole.refugee 1).contracts.map
        Contract.refugeeSignedAt) = [some 1] ∧
    (some 2 : Option Nat) ≠ some 1 := by
  decide

/-- Witness for the C2 theorem at a concrete contract. -/
theorem signContract_overwrite_witness :
    ({ mkContract 1 "r1" "h1" with refugeeSignedAt := some 2 } :
      Contract).refugeeSignedAt = some 2 :=
  (signContract_overwrite dbC2 1 SignerRole.refugee 1 2).2
    { mkContract 1 "r1" "h1" with refugeeSignedAt := some 2 }
    (by decide) (by decide)

/-- C10 amended: the notification-read route performs no recipient check:
for every caller it succeeds, the outcome is independent of the caller's
identity, and the notification with the requested id ends with
`read = true`. -/
theorem markNotificationRead_no_recipient_check (db : DB)
    (callerId otherId : String) (nid : Nat) :
    (routeMarkNotificationRead db callerId nid).1 = Resp.ok () ∧
    routeMarkNotificationRead db callerId nid =
      routeMarkNotificationRead db otherId nid ∧
    ∀ n ∈ (routeMarkNotificationRead db callerId nid).2.notifications,
      n.id = nid → n.read = true := by
  refine ⟨rfl, rfl, ?_⟩
  intro n hn hid
  unfold routeMarkNotificationRead DatabaseStorage.markNotificationAsRead at hn
  simp only [List.mem_map] at hn
  obtain ⟨a, _, rfl⟩ := hn
  by_cases h : a.id = nid <;> simp_all

/-- C10 counterexample: `"bob"` is not the recipient of notification 1
(recipient `"alice"`), yet the request succeeds and flips the read flag. -/
theorem markNotificationRead_by_nonrecipient :
    nC10.userId = "alice" ∧ ("bob" : String) ≠ "alice" ∧ nC10.read = false ∧
    (routeMarkNotificationRead dbC10 "bob" 1).1 = Resp.ok () ∧
    ((routeMarkNotificationRead dbC10 "bob" 1).2.notifications.map
        Notification.read) = [true] := by
  decide

/-- Witness for the C10 theorem at a concrete notification. -/
theorem markNotificationRead_no_recipient_check_witness :
    (routeMarkNotificationRead dbC10 "bob" 1).1 = Resp.ok () ∧
    ({ nC10 with read := true } : Notification).read = true :=
  ⟨(markNotificationRead_no_recipient_check dbC10 "bob" "alice" 1).1,
    (markNotificationRead_no_recipient_check dbC10 "bob" "alice" 1).2.2
      { nC10 with read := true } (by decide) (by decide)⟩

/-- C1 amended: `approveContract` is gated only on the caller's role. A
caller that does not resolve to an admin user gets 403 and the database is
unchanged; an admin caller always succeeds — the signature timestamps are
never consulted — and the target contract ends with `adminApprovedAt`,
`adminApprovedBy` and `status = completed` set. -/
theorem approveContract_admin_only (db : DB) (callerId : String)
    (cid now : Nat) :
    ((∀ u, DatabaseStorage.getUser db callerId = some u →
        u.role ≠ Role.admin) →
      (routeApproveContract db callerId cid now).1 =
        Resp.err 403 "Admin access required" ∧
      (routeApproveContract db callerId cid now).2 = db) ∧
    (∀ u, DatabaseStorage.getUser db callerId = some u →
      u.role = Role.admin →
      (routeApproveContract db callerId cid now).1 = Resp.ok () ∧
      ∀ c ∈ (routeApproveContract db callerId cid now).2.contracts,
        c.id = cid →
        c.adminApprovedAt = some now ∧ c.adminApprovedBy = some callerId ∧
        c.status = ContractStatus.completed) := by
  constructor
  · intro hna
    unfold routeApproveContract
    cases hu : DatabaseStorage.getUser db callerId with
    | none => exact ⟨rfl, rfl⟩
    | some u =>
        have h := hna u hu
        simp [h]
  · intro u hu hrole
    have hcontracts : (routeApproveContract db callerId cid now).2.contracts =
        (DatabaseStorage.approveContract db cid callerId now).contracts := by
      unfold routeApproveContract
      rw [hu]
      simp only [hrole, if_pos rfl]
      cases DatabaseStorage.getContract
          (DatabaseStorage.approveContract db cid callerId now) cid with
      | none => rfl
      | some c => simp
    have hok : (routeApproveContract db callerId cid now).1 = Resp.ok () := by
      unfold routeApproveContract
      rw [hu]
      simp only [hrole, if_pos rfl]
      cases DatabaseStorage.getContract
          (DatabaseStorage.approveContract db cid callerId now) cid with
      | none => rfl
      | some c => rfl
    refine ⟨hok, ?_⟩
    intro c hc hid
    rw [hcontracts] at hc
    unfold DatabaseStorage.approveContract at hc
    simp only [List.mem_map] at hc
    obtain ⟨a, _, rfl⟩ := hc
    by_cases h : a.id = cid <;> simp_all

/-- C1 counterexample: with both signature timestamps still null, an admin's
approval request succeeds and sets the ratification fields — the claimed
both-signatures precondition is not enforced. -/
theorem approveContract_unsigned_succeeds :
    dbC1.contracts.map Contract.refugeeSignedAt = [none] ∧
    dbC1.contracts.map Contract.hostSignedAt = [none] ∧
    (routeApproveContract dbC1 "a1" 1 5).1 = Resp.ok () ∧
    ((routeApproveContract dbC1 "a1" 1 5).2.contracts.map
        (fun c => (c.adminApprovedAt, c.adminApprovedBy, c.status))) =
      [(some 5, some "a1", ContractStatus.completed)] := by
  decide

/-- Witness for the C1 theorem at a concrete admin caller. -/
theorem approveContract_admin_only_witness :
    (routeApproveContract dbC1 "a1" 1 5).1 = Resp.ok () ∧
    ({ mkContract 1 "r1" "h1" with
        adminApprovedAt := some 5,
        adminApprovedBy := some "a1",
        status := ContractStatus.completed } : Contract).adminApprovedAt =
      some 5 := by
  have h := (approveContract_admin_only dbC1 "a1" 1 5).2
    (mkUser "a1" Role.admin ProfileStatus.approved) (by decide) (by decide)
  exact ⟨h.1, (h.2 _ (by decide) (by decide)).1⟩

/-- C3 amended: the signing route checks only that the caller resolves to a
user with role refugee or host — it never compares the caller's id with the
contract's `refugeeId`/`hostId` — and on success writes the timestamp slot
matching the caller's role on the target contract. -/
theorem signContract_role_only (db : DB) (callerId : String) (cid now : Nat) :
    (((routeSignContract db callerId cid now).1 = Resp.ok ()) ↔
      ∃ u, DatabaseStorage.getUser db callerId = some u ∧
        (u.role = Role.refugee ∨ u.role = Role.host)) ∧
    (∀ u, DatabaseStorage.getUser db callerId = some u →
      u.role = Role.refugee →
      ∀ c ∈ (routeSignContract db callerId cid now).2.contracts,
        c.id = cid → c.refugeeSignedAt = some now) ∧
    (∀ u, DatabaseStorage.getUser db callerId = some u →
      u.role = Role.host →
      ∀ c ∈ (routeSignContract db callerId cid now).2.contracts,
        c.id = cid → c.hostSignedAt = some now) := by
  refine ⟨?_, ?_, ?_⟩
  · unfold routeSignContract
    cases hu : DatabaseStorage.getUser db callerId with
    | none => simp
    | some u =>
        cases hr : u.role <;> simp [hr, hu]
  · intro u hu hrole c hc hid
    unfold routeSignContract at hc
    simp only [hu, hrole, signNotify_contracts] at hc
    unfold DatabaseStorage.signContract at hc
    simp only [List.mem_map] at hc
    obtain ⟨a, _, rfl⟩ := hc
    by_cases h : a.id = cid <;> simp_all
  · intro u hu hrole c hc hid
    unfold routeSignContract at hc
    simp only [hu, hrole, signNotify_contracts] at hc
    unfold DatabaseStorage.signContract at hc
    simp only [List.mem_map] at hc
    obtain ⟨a, _, rfl⟩ := hc
    by_cases h : a.id = cid <;> simp_all

/-- C3 counterexample: `"eve"` is neither the contract's refugee (`"r1"`)
nor its host (`"h1"`), yet her signing request succeeds and sets the
contract's `refugeeSignedAt`. -/
theorem signContract_nonparty_signs :
    ((dbC3.contracts.map (fun c => (c.refugeeId, c.hostId))) =
      [("r1", "h1")]) ∧
    ("eve" : String) ≠ "r1" ∧ ("eve" : String) ≠ "h1" ∧
    (routeSignContract dbC3 "eve" 1 4).1 = Resp.ok () ∧
    ((routeSignContract dbC3 "eve" 1 4).2.contracts.map
        Contract.refugeeSignedAt) = [some 4] := by
  decide

/-- Witness for the C3 theorem at a concrete non-party refugee caller. -/
theorem signContract_role_only_witness :
    (routeSignContract dbC3 "eve" 1 4).1 = Resp.ok () ∧
    ({ mkContract 1 "r1" "h1" with refugeeSignedAt := some 4 } :
      Contract).refugeeSignedAt = some 4 := by
  refine ⟨(signContract_role_only dbC3 "eve" 1 4).1.2
    ⟨mkUser "eve" Role.refugee ProfileStatus.approved, by decide,
      Or.inl (by decide)⟩, ?_⟩
  exact (signContract_role_only dbC3 "eve" 1 4).2.1
    (mkUser "eve" Role.refugee ProfileStatus.approved) (by decide) (by decide)
    { mkContract 1 "r1" "h1" with refugeeSignedAt := some 4 }
    (by decide) (by decide)

/-- C6 amended: the profile-review route checks only that the caller is an
admin; it never consults the target's current `profile_status` and
unconditionally overwrites it with approved or rejected per the request's
flag, so approved→rejected and rejected→approved are reachable. The route
never writes pending, so approved→pending is not reachable through it. -/
theorem reviewProfile_overwrites (db : DB) (callerId targetId : String)
    (approved : Bool) (now : Nat) :
    ∀ u, DatabaseStorage.getUser db callerId = some u →
      u.role = Role.admin →
      (routeApproveProfile db callerId targetId approved now).1 = Resp.ok () ∧
      (∀ v ∈ (routeApproveProfile db callerId targetId approved now).2.users,
        v.id = targetId →
        v.profileStatus =
          (if approved then ProfileStatus.approved
           else ProfileStatus.rejected)) ∧
      (if approved then ProfileStatus.approved else ProfileStatus.rejected) ≠
        ProfileStatus.pending := by
  intro u hu hrole
  refine ⟨?_, ?_, ?_⟩
  · unfold routeApproveProfile
    simp [hu, hrole]
  · intro v hv hid
    unfold routeApproveProfile at hv
    simp only [hu, hrole, if_pos rfl, createNotification_users] at hv
    obtain ⟨a, _, rfl⟩ := List.mem_map.1 hv
    by_cases h : a.id = targetId <;> simp_all
  · cases approved <;> simp

/-- C6 counterexample: user `"u1"` already has `profile_status = approved`;
an admin re-review with `approved = false` succeeds (no
`InvalidStateTransitionError`) and moves the status approved→rejected. -/
theorem reviewProfile_terminal_overwritten :
    ((DatabaseStorage.getUser dbC6 "u1").map User.profileStatus) =
      some ProfileStatus.approved ∧
    (routeApproveProfile dbC6 "a1" "u1" false 3).1 = Resp.ok () ∧
    ((routeApproveProfile dbC6 "a1" "u1" false 3).2.users.filterMap
        (fun v => if v.id = "u1" then some v.profileStatus else none)) =
      [ProfileStatus.rejected] := by
  decide

/-- Witness for the C6 theorem at a concrete admin caller and target. -/
theorem reviewProfile_overwrites_witness :
    (routeApproveProfile dbC6 "a1" "u1" false 3).1 = Resp.ok () := by
  exact ((reviewProfile_overwrites dbC6 "a1" "u1" false 3)
    (mkUser "a1" Role.admin ProfileStatus.approved) (by decide) (by decide)).1

/-- C5 amended: profile submission performs no duplicate check: every
request whose body passes the zod schema appends exactly one new profile row
for the caller — regardless of whether a profile of that variant already
exists — and never fails with a duplicate error. Both profile variants
behave this way. -/
theorem submitProfile_no_duplicate_check :
    (∀ (db : DB) (callerId : String) (fn : Option String)
      (body : RefugeeProfileReq) (data : InsertRefugeeProfile) (now : Nat),
      parseInsertRefugeeProfile body = some data →
      ∃ p, (routeCreateRefugeeProfile db callerId fn body now).1 =
          Resp.ok p ∧
        (routeCreateRefugeeProfile db callerId fn body now).2.refugeeProfiles =
          db.refugeeProfiles ++ [p] ∧
        p.userId = callerId) ∧
    (∀ (db : DB) (callerId : String) (fn : Option String)
      (body : HostProfileReq) (data : InsertHostProfile) (now : Nat),
      parseInsertHostProfile body = some data →
      ∃ p, (routeCreateHostProfile db callerId fn body now).1 = Resp.ok p ∧
        (routeCreateHostProfile db callerId fn body now).2.hostProfiles =
          db.hostProfiles ++ [p] ∧
        p.userId = callerId) := by
  constructor
  · intro db callerId fn body data now hparse
    refine ⟨(DatabaseStorage.createRefugeeProfile db callerId data now).2,
      ?_, ?_, rfl⟩
    · unfold routeCreateRefugeeProfile
      rw [hparse]
    · unfold routeCreateRefugeeProfile
      rw [hparse]
      simp only [createNotification_refugeeProfiles]
      rfl
  · intro db callerId fn body data now hparse
    refine ⟨(DatabaseStorage.createHostProfile db callerId data now).2,
      ?_, ?_, rfl⟩
    · unfold routeCreateHostProfile
      rw [hparse]
    · unfold routeCreateHostProfile
      rw [hparse]
      simp only [createNotification_hostProfiles]
      rfl

/-- C5 counterexample: `"u1"` already has a refugee profile; a second
submission succeeds (no `DuplicateProfileError`) and a second profile row
for `"u1"` is created. -/
theorem submitProfile_duplicate_created :
    (dbC5.refugeeProfiles.map RefugeeProfile.userId) = ["u1"] ∧
    (routeCreateRefugeeProfile dbC5 "u1" none rpBody 6).1 =
      Resp.ok { rpExisting with id := 2, createdAt := 6, updatedAt := 6 } ∧
    ((routeCreateRefugeeProfile dbC5 "u1" none rpBody 6).2.refugeeProfiles.map
        RefugeeProfile.userId) = ["u1", "u1"] := by
  decide

/-- Witness for the C5 theorem at a concrete duplicate submission. -/
theorem submitProfile_no_duplicate_check_witness :
    ∃ p, (routeCreateRefugeeProfile dbC5 "u1" none rpBody 6).1 = Resp.ok p ∧
      (routeCreateRefugeeProfile dbC5 "u1" none rpBody 6).2.refugeeProfiles =
        dbC5.refugeeProfiles ++ [p] ∧
      p.userId = "u1" :=
  submitProfile_no_duplicate_check.1 dbC5 "u1" none rpBody rpData 6 (by decide)

/-- Inversion of a successful `insertContractSchema` parse: the produced
payload's fields come from the request body. -/
theorem parseInsertContract_inv (b : ContractReq) (ic : InsertContract)
    (h : parseInsertContract b = some ic) :
    ic.startDate = b.startDate ∧ ic.endDate = b.endDate := by
  obtain ⟨rid, hid, st, tm, du, sd, ed⟩ := b
  unfold parseInsertContract at h
  cases rid <;> cases hid <;> cases tm <;> cases du <;> simp_all
  obtain ⟨rfl⟩ := h.symm
  exact ⟨rfl, rfl⟩

/-- A parse attempt with a missing `terms` or `duration` fails. -/
theorem parseInsertContract_none (b : ContractReq)
    (h : b.terms = none ∨ b.duration = none) :
    parseInsertContract b = none := by
  obtain ⟨rid, hid, st, tm, du, sd, ed⟩ := b
  unfold parseInsertContract
  cases rid <;> cases hid <;> cases tm <;> cases du <;>
    first
    | rfl
    | simp_all

/-- C9 amended: contract creation fails with 400 — and inserts nothing —
when `terms` or `duration` is missing, because those are the not-null
columns of the insert schema; but `startDate` and `endDate` are nullable,
hence optional: a body that passes the parse (dates possibly absent) always
creates exactly one contract carrying the body's (possibly null) dates. -/
theorem createContract_required_fields (db : DB) (callerId : String)
    (body : ContractReq) (now : Nat) :
    ((body.terms = none ∨ body.duration = none) →
      (routeCreateContract db callerId body now).1 =
        Resp.err 400 "Failed to create contract" ∧
      (routeCreateContract db callerId body now).2 = db) ∧
    (∀ ic, parseInsertContract body = some ic →
      ∃ c, (routeCreateContract db callerId body now).1 = Resp.ok c ∧
        (routeCreateContract db callerId body now).2.contracts =
          db.contracts ++ [c] ∧
        c.startDate = body.startDate ∧ c.endDate = body.endDate) := by
  constructor
  · intro h
    have hp := parseInsertContract_none body h
    unfold routeCreateContract
    rw [hp]
    exact ⟨rfl, rfl⟩
  · intro ic hparse
    have hinv := parseInsertContract_inv body ic hparse
    refine ⟨(DatabaseStorage.createContract db
        (if (DatabaseStorage.getUser db callerId).map User.role =
            some Role.refugee then
          { ic with refugeeId := callerId }
        else if (DatabaseStorage.getUser db callerId).map User.role =
            some Role.host then
          { ic with hostId := callerId }
        else ic) now).2, ?_, ?_, ?_, ?_⟩
    · unfold routeCreateContract
      rw [hparse]
    · unfold routeCreateContract
      rw [hparse]
      simp only [createNotification_contracts]
      rfl
    · rw [← hinv.1]
      split_ifs <;> rfl
    · rw [← hinv.2]
      split_ifs <;> rfl

/-- C9 counterexample: a proposal with no start date and no end date is
accepted — the route answers 200 with the created contract (the claimed
`ValidationError` for missing dates does not exist) and one contract row
with null dates is inserted. -/
theorem createContract_missing_dates_succeeds :
    bodyC9.startDate = none ∧ bodyC9.endDate = none ∧
    (routeCreateContract dbC9 "r1" bodyC9 5).1 =
      Resp.ok { mkContract 1 "r1" "h1" with
                  terms := "standard terms", createdAt := 5,
                  updatedAt := 5 } ∧
    ((routeCreateContract dbC9 "r1" bodyC9 5).2.contracts.map
        (fun c => (c.startDate, c.endDate))) = [(none, none)] := by
  decide

/-- Witness for the C9 theorem: a missing-`terms` body is rejected with 400
and the database is unchanged. -/
theorem createContract_required_fields_witness :
    (routeCreateContract dbC9 "r1" bodyC9m 5).1 =
      Resp.err 400 "Failed to create contract" ∧
    (routeCreateContract dbC9 "r1" bodyC9m 5).2 = dbC9 :=
  (createContract_required_fields dbC9 "r1" bodyC9m 5).1 (Or.inl (by decide))

/-- Membership in the hosts join: a (user, profile) pair is produced exactly
for approved host users joined to their profile rows. -/
theorem getApprovedHosts_mem (db : DB) (u : User) (p : HostProfile) :
    (u, p) ∈ DatabaseStorage.getApprovedHosts db ↔
      u ∈ db.users ∧ u.role = Role.host ∧
      u.profileStatus = ProfileStatus.approved ∧
      p ∈ db.hostProfiles ∧ p.userId = u.id := by
  unfold DatabaseStorage.getApprovedHosts
  simp only [List.mem_filter, List.mem_flatMap, List.mem_filterMap,
    Option.ite_none_right_eq_some, Option.some.injEq, Prod.mk.injEq,
    decide_eq_true_eq]
  constructor
  · rintro ⟨⟨u', hu', p', hp', hid, rfl, rfl⟩, hst, hrole⟩
    exact ⟨hu', hrole, hst, hp', hid⟩
  · rintro ⟨hu, hrole, hst, hp, hid⟩
    exact ⟨⟨u, hu, p, hp, hid, rfl, rfl⟩, hst, hrole⟩

/-- C7: the host-discovery route rejects with 403 any caller whose identity
does not resolve to a user with `profileStatus = approved` (leaving the
database unchanged), and for an approved caller returns exactly the users
with role host and approved status, each joined with their host profile. -/
theorem listAvailableHosts_correct (db : DB) (callerId : String) :
    ((∀ u, DatabaseStorage.getUser db callerId = some u →
        u.profileStatus ≠ ProfileStatus.approved) →
      (routeAvailableHosts db callerId).1 =
        Resp.err 403 "Profile must be approved to view hosts" ∧
      (routeAvailableHosts db callerId).2 = db) ∧
    (∀ u, DatabaseStorage.getUser db callerId = some u →
      u.profileStatus = ProfileStatus.approved →
      (routeAvailableHosts db callerId).1 =
        Resp.ok (DatabaseStorage.getApprovedHosts db) ∧
      ∀ v q, (v, q) ∈ DatabaseStorage.getApprovedHosts db ↔
        v ∈ db.users ∧ v.role = Role.host ∧
        v.profileStatus = ProfileStatus.approved ∧
        q ∈ db.hostProfiles ∧ q.userId = v.id) := by
  constructor
  · intro hna
    unfold routeAvailableHosts
    cases hu : DatabaseStorage.getUser db callerId with
    | none => exact ⟨rfl, rfl⟩
    | some u =>
        have h := hna u hu
        simp [h]
  · intro u hu hst
    refine ⟨?_, fun v q => getApprovedHosts_mem db v q⟩
    unfold routeAvailableHosts
    rw [hu]
    simp [hst]

/-- Witness for the C7 theorem: the approved requester gets the join, which
contains the approved host with its profile. -/
theorem listAvailableHosts_correct_witness :
    (routeAvailableHosts dbC7 "s1").1 =
      Resp.ok (DatabaseStorage.getApprovedHosts dbC7) ∧
    (mkUser "h1" Role.host ProfileStatus.approved, hpC7) ∈
      DatabaseStorage.getApprovedHosts dbC7 := by
  have h := (listAvailableHosts_correct dbC7 "s1").2
    (mkUser "s1" Role.refugee ProfileStatus.approved) (by decide) (by decide)
  exact ⟨h.1, (h.2 _ _).mpr ⟨by decide, rfl, rfl, by decide, rfl⟩⟩

/-- C8: `getConversation A B` is a permutation of the messages whose
(sender, receiver) pair is (A,B) or (B,A) — so exactly those messages, with
nothing dropped (no pagination) — and its creation timestamps are
non-decreasing. -/
theorem getConversation_correct (db : DB) (a b : String) :
    ((DatabaseStorage.getConversation db a b).Perm
      (db.messages.filter (fun m =>
        decide ((m.senderId = a ∧ m.receiverId = b) ∨
                (m.senderId = b ∧ m.receiverId = a))))) ∧
    (∀ m, m ∈ DatabaseStorage.getConversation db a b ↔
      m ∈ db.messages ∧
        ((m.senderId = a ∧ m.receiverId = b) ∨
         (m.senderId = b ∧ m.receiverId = a))) ∧
    List.Pairwise (fun m1 m2 => m1.createdAt ≤ m2.createdAt)
      (DatabaseStorage.getConversation db a b) := by
  have hperm : (DatabaseStorage.getConversation db a b).Perm
      (db.messages.filter (fun m =>
        decide ((m.senderId = a ∧ m.receiverId = b) ∨
                (m.senderId = b ∧ m.receiverId = a)))) :=
    List.perm_insertionSort _ _
  refine ⟨hperm, ?_, ?_⟩
  · intro m
    rw [hperm.mem_iff, List.mem_filter]
    simp only [decide_eq_true_eq]
  · exact List.sorted_insertionSort _ _

/-- Witness for the C8 theorem on a concrete conversation. -/
theorem getConversation_correct_witness :
    msgB ∈ DatabaseStorage.getConversation dbC8 "alice" "bob" ∧
    List.Pairwise (fun m1 m2 => m1.createdAt ≤ m2.createdAt)
      (DatabaseStorage.getConversation dbC8 "alice" "bob") := by
  refine ⟨?_, (getConversation_correct dbC8 "alice" "bob").2.2⟩
  exact ((getConversation_correct dbC8 "alice" "bob").2.1 msgB).mpr
    ⟨by decide, Or.inr ⟨rfl, rfl⟩⟩

/-- One contract-workflow step preserves the implication from a set
`adminApprovedAt` to `status = completed`. -/
theorem ContractStep.adminApproved_completed {db db' : DB}
    (h : ContractStep db db')
    (ih : ∀ c ∈ db.contracts, c.adminApprovedAt ≠ none →
      c.status = ContractStatus.completed) :
    ∀ c ∈ db'.contracts, c.adminApprovedAt ≠ none →
      c.status = ContractStatus.completed := by
  cases h with
  | create ic now =>
      intro c hc hsome
      rcases List.mem_append.1 hc with h1 | h1
      · exact ih c h1 hsome
      · rcases List.mem_singleton.1 h1 with rfl
        exact absurd rfl hsome
  | sign cid r now =>
      intro c hc hsome
      obtain ⟨x, hx, rfl⟩ := List.mem_map.1 hc
      by_cases hid : x.id = cid
      · cases r <;> rw [if_pos hid] at hsome ⊢ <;> exact ih x hx hsome
      · rw [if_neg hid] at hsome ⊢
        exact ih x hx hsome
  | approve cid adminId now =>
      intro c hc hsome
      obtain ⟨x, hx, rfl⟩ := List.mem_map.1 hc
      by_cases hid : x.id = cid
      · rw [if_pos hid]
      · rw [if_neg hid] at hsome ⊢
        exact ih x hx hsome

/-- C4 amended: in every database reachable from a contract-free state by
the contract operations, a contract with `adminApprovedAt` set has
`status = completed`; and no single operation ever clears a set
`adminApprovedAt` (the converse of the claimed equivalence fails — see the
counterexample: `insertContractSchema` keeps `status`, so a contract can be
created already `completed` with `adminApprovedAt` null). -/
theorem contract_completed_of_adminApproved :
    (∀ db0 db, db0.contracts = [] →
      Relation.ReflTransGen ContractStep db0 db →
      ∀ c ∈ db.contracts, c.adminApprovedAt ≠ none →
        c.status = ContractStatus.completed) ∧
    (∀ db db', ContractStep db db' →
      ∀ c ∈ db.contracts, c.adminApprovedAt ≠ none →
        ∃ c' ∈ db'.contracts, c'.id = c.id ∧ c'.adminApprovedAt ≠ none) := by
  constructor
  · intro db0 db h0 h
    induction h with
    | refl =>
        intro c hc
        rw [h0] at hc
        exact absurd hc (List.not_mem_nil c)
    | tail _ hs ih => exact ContractStep.adminApproved_completed hs ih
  · intro db db' hstep c hc hsome
    cases hstep with
    | create ic now =>
        exact ⟨c, List.mem_append_left _ hc, rfl, hsome⟩
    | sign cid r now =>
        refine ⟨_, List.mem_map_of_mem _ hc, ?_, ?_⟩
        · by_cases hid : c.id = cid
          · cases r <;> rw [if_pos hid]
          · rw [if_neg hid]
        · by_cases hid : c.id = cid
          · cases r <;> rw [if_pos hid] <;> exact hsome
          · rw [if_neg hid]
            exact hsome
    | approve cid adminId now =>
        refine ⟨_, List.mem_map_of_mem _ hc, ?_, ?_⟩
        · by_cases hid : c.id = cid
          · rw [if_pos hid]
          · rw [if_neg hid]
        · by_cases hid : c.id = cid
          · rw [if_pos hid]
            exact Option.some_ne_none now
          · rw [if_neg hid]
            exact hsome

/-- C4 counterexample: one `createContract` step from a contract-free state
reaches a contract with `status = completed` and `adminApprovedAt = null`,
refuting the claimed equivalence between the two. -/
theorem contract_completed_without_approval :
    dbC4a.contracts = [] ∧
    Relation.ReflTransGen ContractStep dbC4a dbC4b ∧
    ∃ c, c ∈ dbC4b.contracts ∧ c.status = ContractStatus.completed ∧
      c.adminApprovedAt = none := by
  refine ⟨rfl, Relation.ReflTransGen.single
    (ContractStep.create dbC4a icC4 7), ?_⟩
  exact ⟨(DatabaseStorage.createContract dbC4a icC4 7).2, by decide,
    by decide, by decide⟩

/-- Witness for the C4 theorem along a concrete create-then-approve run. -/
theorem contract_completed_of_adminApproved_witness :
    ({ mkContract 1 "r1" "h1" with
        createdAt := 3, updatedAt := 3,
        adminApprovedAt := some 9, adminApprovedBy := some "a1",
        status := ContractStatus.completed } : Contract).status =
      ContractStatus.completed := by
  refine contract_completed_of_adminApproved.1 dbC4a dbC4d rfl
    (Relation.ReflTransGen.trans
      (Relation.ReflTransGen.single (ContractStep.create dbC4a icC4p 3))
      (Relation.ReflTransGen.single (ContractStep.approve dbC4c 1 "a1" 9)))
    _ (by decide) (by decide)
